import Mathlib

/-!
# plandl: the Andl language handler for Postgres

A shallow embedding of `src/plandl/plandl.c` (the language handler and the SPI
wrappers) and of `src/plandl/clrhost.cpp` (the CLR loader), with theorems about the
initialisation handshake, the per-call type-check/invoke protocol, the bootstrap
descriptor and the SPI wrappers.

Modelling conventions

* The module globals (`init`, `init_ok`, the four `pfn_*` slots) and the loader statics
  (`_lasterr`, `_lastmsg`) form the record `State`.  A function pointer is an `Option`:
  `none` is the null pointer `0`.
* Everything outside the module (the hosted runtime, the COM hosting interfaces) has a
  state of its own, of an arbitrary type `W`, threaded through every external call.
* `elog(ERROR, ...)` does not return: it is the result `Res.error`, carrying the format
  string (as a constructor of `Err`) and its arguments.  Globals keep the values they had
  when the error was raised.
* A call through a null function pointer or a read outside an array is undefined
  behaviour in C: it is the result `Res.fault`.
* Each function also returns the list of external calls it made (`Event`), so that
  statements such as "load_clr is not called" can be written down.
* C strings are Lean strings (without the terminating NUL).
* `init` is a 32-bit C `int`.  `++init` is `incr32`: it adds 1 and wraps from `INT_MAX`
  to `INT_MIN`, as the compiled code does (in ISO C the overflow is undefined).  The field
  `incs` of `State` is not a program variable: it counts how often `++init` has run, so
  that theorems can bound the number of increments.
* `isnoisy` is `false` and never assigned, so the `elog(NOTICE, ...)` lines never run.
* The hosted runtime calls `plandl_init_callback` only from its entry point, that is while
  `load_clr` runs (any number of times, with any pointers); the four callbacks do not call
  back into `plandl_init_callback` or `plandl_call_handler`.
-/

namespace Plandl

/-! ## Basic types -/

/-- Postgres object identifier. -/
abbrev Oid := Nat

/-- Postgres `Datum`: an unsigned machine word. -/
abbrev Datum := Nat

/-- Undefined behaviour the code can run into. -/
inductive Fault where
  /-- A call through a function pointer that is `0` -/
  | nullCall
  /-- An array read at an index outside the valid elements -/
  | outOfBounds
  deriving DecidableEq, Repr

/-- The `elog(ERROR, fmt, ...)` calls of the module, one constructor per format string. -/
inductive Err where
  /-- Format `"cache lookup failed for function %u"` -/
  | cacheLookupFailed (funcOid : Oid)
  /-- Format `"null prosrc"` -/
  | nullProsrc
  /-- Format `"initialisation incomplete: function '%s'"` -/
  | initIncomplete (proname : String)
  /-- Format `"Previous load failed (%d), new session required: hr=%x msg=%s"` -/
  | previousLoadFailed (init : Int) (hr : Int) (msg : String)
  /-- Format `"Load runtime failed: hr=%x msg=%s"` -/
  | loadRuntimeFailed (hr : Int) (msg : String)
  /-- Format `"Connect to gateway failed: %s"` -/
  | connectFailed (msg : String)
  /-- Format `"(Type check) %s"` -/
  | typeCheck (msg : String)
  /-- Format `"(Invoke) %s"` -/
  | invoke (msg : String)
  /-- Format `"getdatum r=%d c=%d null"` -/
  | getdatumNull (row : Int) (column : Int)
  deriving DecidableEq, Repr

/-- The `%x` conversion of a 32-bit `int`: lower-case hexadecimal of its unsigned value. -/
def fmtHex (i : Int) : String :=
  String.mk (Nat.toDigits 16 (i % 4294967296).toNat)

/-- The `%d` conversion. -/
def fmtDec (i : Int) : String :=
  if i < 0 then "-" ++ toString i.natAbs else toString i.natAbs

/-- The text `elog` produces for each error. -/
def Err.render : Err → String
  | .cacheLookupFailed oid => "cache lookup failed for function " ++ toString oid
  | .nullProsrc => "null prosrc"
  | .initIncomplete n => "initialisation incomplete: function \x27" ++ n ++ "\x27"
  | .previousLoadFailed i hr msg =>
      "Previous load failed (" ++ fmtDec i ++ "), new session required: hr=" ++ fmtHex hr
        ++ " msg=" ++ msg
  | .loadRuntimeFailed hr msg => "Load runtime failed: hr=" ++ fmtHex hr ++ " msg=" ++ msg
  | .connectFailed msg => "Connect to gateway failed: " ++ msg
  | .typeCheck msg => "(Type check) " ++ msg
  | .invoke msg => "(Invoke) " ++ msg
  | .getdatumNull r c => "getdatum r=" ++ fmtDec r ++ " c=" ++ fmtDec c ++ " null"

/-- How a function of the module ends: it returns `a`, it raises `elog(ERROR, ...)`, or it
runs into undefined behaviour. -/
inductive Res (α : Type) where
  | ok (a : α)
  | error (e : Err)
  | fault (f : Fault)
  deriving DecidableEq, Repr

/-- The result is an `elog(ERROR, ...)`. -/
def Res.isError {α : Type} : Res α → Bool
  | .error _ => true
  | _ => false

/-- External calls made by the module. -/
inductive Event where
  /-- Call `load_clr(path)` -/
  | load_clr (path : String)
  /-- Call `plandl_init_callback(...)`, made by the hosted runtime -/
  | init_callback
  /-- Call `pfn_connect(handle, options)` -/
  | connect (handle : Int) (options : String)
  /-- Call `pfn_typecheck(handle, name, nargs, argtyps, rettyp)` -/
  | typecheck (handle : Int) (name : String) (nargs : Int) (argtyps : List Oid) (rettyp : Oid)
  /-- Call `pfn_invoke(handle, name, nargs, args, &retval)` -/
  | invoke (handle : Int) (name : String) (nargs : Int) (args : List Datum)
  /-- Call `pfn_getmessage(handle)` -/
  | getmessage (handle : Int)
  deriving DecidableEq, Repr

/-- The event is a call of `load_clr`. -/
def Event.isLoad : Event → Bool
  | .load_clr _ => true
  | _ => false

/-- The event is a call through `pfn_connect`. -/
def Event.isConnect : Event → Bool
  | .connect _ _ => true
  | _ => false

/-! ## Callback signatures (plandl.c, lines 81-84) -/

/-- Source: `typedef int (connfn)(int handle, char* options);` -/
abbrev connfn (W : Type) := W → Int → String → Int × W

/-- Source: `typedef int (checkfn)(int handle, char* name, int nargs, Oid* argtyps, Oid rettyp);` -/
abbrev checkfn (W : Type) := W → Int → String → Int → List Oid → Oid → Int × W

/-- Source: `typedef int (invokefn)(int handle, char* name, int nargs, Datum* args, Datum* retval);`
The last argument is the content of `*retval` before the call; the result carries the
return code and the content of `*retval` after the call. -/
abbrev invokefn (W : Type) := W → Int → String → Int → List Datum → Datum → (Int × Datum) × W

/-- Source: `typedef char* (getmfn)(int handle);` -/
abbrev getmfn (W : Type) := W → Int → String × W

/-- The four pointers passed to one call of `plandl_init_callback`. -/
structure Registration (W : Type) where
  conn : Option (connfn W)
  check : Option (checkfn W)
  invoke : Option (invokefn W)
  gm : Option (getmfn W)

/-! ## Globals -/

/-- The globals of plandl.c (lines 76-88) and the error statics of clrhost.cpp (lines 33-34). -/
structure State (W : Type) where
  /-- Source: `int init = 0;` counter to detect duplicate initialisation -/
  init : Int
  /-- Source: `bool init_ok = false;` true once connected to the runtime -/
  init_ok : Bool
  pfn_connect : Option (connfn W)
  pfn_typecheck : Option (checkfn W)
  pfn_invoke : Option (invokefn W)
  pfn_getmessage : Option (getmfn W)
  /-- Source: `static int _lasterr = 0;` -/
  _lasterr : Int
  /-- Source: `static char* _lastmsg = "";` -/
  _lastmsg : String
  /-- Ghost counter, not a program variable: the number of times `++init` has run. -/
  incs : Nat

/-- The values of the globals when the module has just been loaded. -/
def State.fresh (W : Type) : State W :=
  { init := 0, init_ok := false, pfn_connect := none, pfn_typecheck := none,
    pfn_invoke := none, pfn_getmessage := none, _lasterr := 0, _lastmsg := "", incs := 0 }

/-- The value of a 32-bit `int` after `++`: one more, wrapping from `INT_MAX`
(2147483647) to `INT_MIN` (-2147483648). -/
def incr32 (i : Int) : Int :=
  if i = 2147483647 then -2147483648 else i + 1

/-- The statement `++init;` (plandl.c, lines 95, 103, 121 and 135).  It also counts the
increment in the ghost field `incs`. -/
def incr_init {W : Type} (s : State W) : State W :=
  { s with init := incr32 s.init, incs := s.incs + 1 }

/-- Source: `int myinst = 17;` (never assigned). -/
def myinst : Int := 17

/-- Source: `#define INIT_NAME "plandl_compile"` -/
def INIT_NAME : String := "plandl_compile"

/-- Source: `#define OPTION_DELIM` (the vertical bar; cannot occur in a file name). -/
def OPTION_DELIM : Char := '|'

/-- The result of a function of the module: the globals, the outside world and the
external calls made, together with how the function ended. -/
structure Step (W : Type) (α : Type) where
  st : State W
  w : W
  ev : List Event
  res : Res α

/-! ## clrhost.cpp -/

/-- What the COM hosting calls of one run of `load_clr` answer, in the order in which
`load_clr` makes them.  `registrations` are the calls of `plandl_init_callback` that the
managed entry point makes while `ExecuteInDefaultAppDomain` runs. -/
structure ClrRun (W : Type) where
  hrCreateInstance : Int
  hrGetRuntime : Int
  hrIsLoadable : Int
  fLoadable : Bool
  hrGetInterface : Int
  hrStart : Int
  hrExecute : Int
  dwLengthRet : Nat
  registrations : List (Registration W)

/-- The outside world as far as the loader is concerned: the answers of the COM hosting
interfaces to a run of `load_clr` on a given assembly path (which `load_clr` converts with
`mbstowcs` and hands to `ExecuteInDefaultAppDomain`). -/
structure Env (W : Type) where
  clr : W → String → ClrRun W × W

/-- The `FAILED(hr)` test on an `HRESULT`. -/
def FAILED (hr : Int) : Bool := decide (hr < 0)

/-- Conversion of an unsigned value to a 32-bit `int`. -/
def toInt32 (n : Nat) : Int :=
  if n % 4294967296 < 2147483648 then ((n % 4294967296 : Nat) : Int)
  else ((n % 4294967296 : Nat) : Int) - 4294967296

/-- Source: `int set_err(int err, char* msg)`: records the error and returns 0 (the
`Release` calls act on COM objects only). -/
def set_err {W : Type} (s : State W) (err : Int) (msg : String) : State W × Int :=
  ({ s with _lasterr := err, _lastmsg := msg }, 0)

/-- Source: `int plandl_init_callback(void* connfn, void* checkfn, void* invokefn, void* gmfn)`
(plandl.c, lines 120-127). -/
def plandl_init_callback {W : Type} (s : State W) (r : Registration W) : State W × Int :=
  ({ incr_init s with pfn_connect := r.conn, pfn_typecheck := r.check,
                      pfn_invoke := r.invoke, pfn_getmessage := r.gm }, 1)

/-- The globals after the managed entry point has made its calls of
`plandl_init_callback`. -/
def registerAll {W : Type} (s : State W) (rs : List (Registration W)) : State W :=
  rs.foldl (fun t r => (plandl_init_callback t r).1) s

/-- Source: `int load_clr(char *assembly_path)` (clrhost.cpp, lines 53-84): the globals
afterwards and the return value. -/
def load_clr {W : Type} (s : State W) (run : ClrRun W) : State W × Int :=
  if FAILED run.hrCreateInstance then set_err s run.hrCreateInstance "CreateInstance failed"
  else if FAILED run.hrGetRuntime then set_err s run.hrGetRuntime "GetRuntime failed"
  else if FAILED run.hrIsLoadable then set_err s run.hrIsLoadable "IsLoadable failed"
  else if !run.fLoadable then set_err s 0 "not loadable"
  else if FAILED run.hrGetInterface then
    set_err s run.hrGetInterface "get CLRRuntimeHost failed"
  else if FAILED run.hrStart then set_err s run.hrStart "CLR failed to start"
  else
    let s1 := registerAll s run.registrations
    if FAILED run.hrExecute then set_err s1 run.hrExecute "call method failed"
    else ({ s1 with _lasterr := toInt32 run.dwLengthRet, _lastmsg := "OK" }, 1)

/-- The external calls of one run of `load_clr`: the call itself and, when the entry point
is reached, the registrations it makes. -/
def load_clr_events {W : Type} (path : String) (run : ClrRun W) : List Event :=
  Event.load_clr path ::
    (if FAILED run.hrCreateInstance || FAILED run.hrGetRuntime || FAILED run.hrIsLoadable
        || !run.fLoadable || FAILED run.hrGetInterface || FAILED run.hrStart then []
     else run.registrations.map (fun _ => Event.init_callback))

/-- Source: `int lasterr()` -/
def lasterr {W : Type} (s : State W) : Int := s._lasterr

/-- Source: `char* lastmsg()` -/
def lastmsg {W : Type} (s : State W) : String := s._lastmsg

/-! ## plandl.c: initialisation and the call handler -/

/-- Source: `void _PG_init()` (lines 94-97). -/
def _PG_init {W : Type} (s : State W) : State W :=
  incr_init s

/-- Source: `void handler_init(char* path, char* options)` (lines 101-116). -/
def handler_init {W : Type} (env : Env W) (s : State W) (w : W) (path options : String) :
    Step W Unit :=
  let s1 := incr_init s
  if s1.init ≠ 3 then
    ⟨s1, w, [], .error (.previousLoadFailed s1.init (lasterr s1) (lastmsg s1))⟩
  else
    let run := (env.clr w path).1
    let w1 := (env.clr w path).2
    let s2 := (load_clr s1 run).1
    let ev := load_clr_events path run
    if (load_clr s1 run).2 = 0 then
      ⟨s2, w1, ev, .error (.loadRuntimeFailed (lasterr s2) (lastmsg s2))⟩
    else
      match s2.pfn_connect with
      | none => ⟨s2, w1, ev, .fault .nullCall⟩
      | some conn =>
        let w2 := (conn w1 myinst options).2
        let ev2 := ev ++ [Event.connect myinst options]
        if (conn w1 myinst options).1 = 0 then
          match s2.pfn_getmessage with
          | none => ⟨s2, w2, ev2, .fault .nullCall⟩
          | some gm =>
            ⟨s2, (gm w2 myinst).2, ev2 ++ [Event.getmessage myinst],
              .error (.connectFailed (gm w2 myinst).1)⟩
        else ⟨{ s2 with init_ok := true }, w2, ev2, .ok ()⟩

/-- The `pg_proc` row of a function, as far as the handler reads it. -/
structure ProcEntry where
  proname : String
  pronargs : Int
  proargtypes : List Oid
  prorettype : Oid
  /-- The attribute `prosrc`; `none` when `SysCacheGetAttr` reports `isnull` -/
  prosrc : Option String
  deriving DecidableEq, Repr

/-- One call of the handler by Postgres: the function oid in `fcinfo->flinfo->fn_oid`,
what `SearchSysCache1(PROCOID, ...)` finds for it (`none`: not a valid tuple), and the
arguments `fcinfo->arg`. -/
structure Call where
  funcOid : Oid
  proc : Option ProcEntry
  args : List Datum
  deriving DecidableEq, Repr

/-- The function `strchr(s, c)` on a C string: the position of the first `c`, if there is
one. -/
def strchr : List Char → Char → Option Nat
  | [], _ => none
  | x :: xs, c => if x = c then some 0 else (strchr xs c).map (· + 1)

/-- Lines 152-155 of `plandl_call_handler`: `path` is `prosrc` cut at the first
`OPTION_DELIM` (overwritten by NUL), `options` is what follows it, or `""`. -/
def splitDescriptor (prosrc : String) : String × String :=
  match strchr prosrc.data OPTION_DELIM with
  | some i => (String.mk (prosrc.data.take i), String.mk (prosrc.data.drop (i + 1)))
  | none => (prosrc, "")

/-- Lines 160-173 of `plandl_call_handler`: type check, then invoke, then return
`retval`.  `ev0` are the external calls made so far in this call. -/
def call_function {W : Type} (s : State W) (w : W) (p : ProcEntry) (args : List Datum)
    (ev0 : List Event) : Step W Datum :=
  match s.pfn_typecheck with
  | none => ⟨s, w, ev0, .fault .nullCall⟩
  | some chk =>
    let ckret := (chk w myinst p.proname p.pronargs p.proargtypes p.prorettype).1
    let w1 := (chk w myinst p.proname p.pronargs p.proargtypes p.prorettype).2
    let ev1 := ev0 ++ [Event.typecheck myinst p.proname p.pronargs p.proargtypes p.prorettype]
    if ckret = 0 then
      match s.pfn_getmessage with
      | none => ⟨s, w1, ev1, .fault .nullCall⟩
      | some gm =>
        ⟨s, (gm w1 myinst).2, ev1 ++ [Event.getmessage myinst],
          .error (.typeCheck (gm w1 myinst).1)⟩
    else
      match s.pfn_invoke with
      | none => ⟨s, w1, ev1, .fault .nullCall⟩
      | some inv =>
        let ivret := (inv w1 myinst p.proname p.pronargs args 0).1.1
        let retval := (inv w1 myinst p.proname p.pronargs args 0).1.2
        let w2 := (inv w1 myinst p.proname p.pronargs args 0).2
        let ev2 := ev1 ++ [Event.invoke myinst p.proname p.pronargs args]
        if ivret = 0 then
          match s.pfn_getmessage with
          | none => ⟨s, w2, ev2, .fault .nullCall⟩
          | some gm =>
            ⟨s, (gm w2 myinst).2, ev2 ++ [Event.getmessage myinst],
              .error (.invoke (gm w2 myinst).1)⟩
        else ⟨s, w2, ev2, .ok retval⟩

/-- Source: `Datum plandl_call_handler(PG_FUNCTION_ARGS)` (lines 134-173). -/
def plandl_call_handler {W : Type} (env : Env W) (s : State W) (w : W) (c : Call) :
    Step W Datum :=
  let s1 := incr_init s
  match c.proc with
  | none => ⟨s1, w, [], .error (.cacheLookupFailed c.funcOid)⟩
  | some p =>
    if !s1.init_ok then
      if p.proname = INIT_NAME then
        match p.prosrc with
        | none => ⟨s1, w, [], .error .nullProsrc⟩
        | some src =>
          let hi := handler_init env s1 w (splitDescriptor src).1 (splitDescriptor src).2
          match hi.res with
          | .ok _ => call_function hi.st hi.w p c.args hi.ev
          | .error e => ⟨hi.st, hi.w, hi.ev, .error e⟩
          | .fault f => ⟨hi.st, hi.w, hi.ev, .fault f⟩
      else ⟨s1, w, [], .error (.initIncomplete p.proname)⟩
    else call_function s1 w p c.args []

/-- Every stage of the loader answers success: the condition under which `load_clr`
reaches `return 1` (see `load_clr_ret`). -/
def ClrRun.succeeds {W : Type} (run : ClrRun W) : Bool :=
  !FAILED run.hrCreateInstance && !FAILED run.hrGetRuntime && !FAILED run.hrIsLoadable
    && run.fLoadable && !FAILED run.hrGetInterface && !FAILED run.hrStart
    && !FAILED run.hrExecute

/-- The states a session can be in between two calls of the handler: the module is loaded
(`init = 0`, `init_ok = false`, no callbacks), Postgres runs `_PG_init` once, and then
calls `plandl_call_handler` any number of times; the index counts these calls.  The
outside world may change between calls. -/
inductive Session {W : Type} (env : Env W) : Nat → State W → W → Prop where
  | start (w : W) : Session env 0 (_PG_init (State.fresh W)) w
  | call {n : Nat} {s : State W} {w : W} (c : Call) :
      Session env n s w → (∀ f, (plandl_call_handler env s w c).res ≠ .fault f) →
      Session env (n + 1) (plandl_call_handler env s w c).st (plandl_call_handler env s w c).w
  | world {n : Nat} {s : State W} {w : W} (w2 : W) : Session env n s w → Session env n s w2

/-! ## plandl.c: wrappers for the SPI routines (lines 239-297)

The SPI routines belong to Postgres.  Each wrapper takes what the wrapped routine answers
(its return value, and the values of `SPI_result` and `SPI_processed` after it) as
arguments. -/

/-- Source: `#define SPI_OK 0` (plandl.c, line 65). -/
def SPI_OK : Int := 0

/-- The constant `SPI_OK_CONNECT` of the Postgres header executor/spi.h. -/
def SPI_OK_CONNECT : Int := 1

/-- The constant `SPI_OK_FETCH` of the Postgres header executor/spi.h. -/
def SPI_OK_FETCH : Int := 3

/-- The constant `SPI_OK_SELECT` of the Postgres header executor/spi.h. -/
def SPI_OK_SELECT : Int := 5

/-- The constant `SPI_ERROR_ARGUMENT` of the Postgres header executor/spi.h. -/
def SPI_ERROR_ARGUMENT : Int := -6

/-- Source: `int pg_spi_connect(void) { return SPI_connect(); }` -/
def pg_spi_connect (SPI_connect : Int) : Int := SPI_connect

/-- Source: `int pg_spi_finish(void) { return SPI_finish(); }` -/
def pg_spi_finish (SPI_finish : Int) : Int := SPI_finish

/-- Source: `int pg_spi_execute(sql, read_only) { return SPI_execute(sql, read_only, 0); }` -/
def pg_spi_execute (SPI_execute : String → Bool → Int → Int) (sql : String)
    (read_only : Bool) : Int :=
  SPI_execute sql read_only 0

/-- Source: `int pg_spi_prepare_cursor(sql, nargs, argtypes, options, plan)`: `p` is what
`SPI_prepare_cursor` returns (`none`: NULL) and `SPI_result` the value of that global
afterwards.  The result is the status and the value stored to `*plan`, if any. -/
def pg_spi_prepare_cursor {Plan : Type} (p : Option Plan) (SPI_result : Int) :
    Int × Option Plan :=
  match p with
  | none => (SPI_result, none)
  | some q => (SPI_OK, some q)

/-- Source: `int pg_spi_execute_plan(plan, nvalues, values, read_only)
{ return SPI_execute_plan(plan, values, NULL, read_only, 0); }` -/
def pg_spi_execute_plan {Plan : Type} (SPI_execute_plan : Plan → List Datum → Bool → Int → Int)
    (plan : Plan) (values : List Datum) (read_only : Bool) : Int :=
  SPI_execute_plan plan values read_only 0

/-- What `pg_spi_getdatum` did: the index at which it read `SPI_tuptable->vals`, if it
did, the value it stored to `*datum`, if any, and how it ended. -/
structure GetDatum where
  rowRead : Option Int
  written : Option Datum
  res : Res Int
  deriving DecidableEq, Repr

/-- Source: `int pg_spi_getdatum(int row, int column, Datum* datum)` (lines 273-281).  `vals` are
the rows of `SPI_tuptable`; `SPI_getbinval` answers the datum, `isnull` and the value of
`SPI_result` afterwards. -/
def pg_spi_getdatum {Tup : Type} (SPI_processed : Nat) (vals : List Tup)
    (SPI_getbinval : Tup → Int → Datum × Bool × Int) (row column : Int) : GetDatum :=
  if row < 0 ∨ row > toInt32 SPI_processed then ⟨none, none, .ok SPI_ERROR_ARGUMENT⟩
  else
    match vals[row.toNat]? with
    | none => ⟨some row, none, .fault .outOfBounds⟩
    | some t =>
      let d := (SPI_getbinval t column).1
      let isnull := (SPI_getbinval t column).2.1
      let SPI_result := (SPI_getbinval t column).2.2
      if SPI_result < 0 then ⟨some row, none, .ok SPI_result⟩
      else if isnull then ⟨some row, none, .error (.getdatumNull row column)⟩
      else ⟨some row, some d, .ok SPI_OK⟩

/-- Source: `int pg_spi_cursor_execute(sql, read_only, portal)`: `p` is what
`SPI_cursor_open_with_args` returns (`none`: NULL) and `SPI_result` the value of that
global afterwards.  The result is the status and the value stored to `*portal`, if any. -/
def pg_spi_cursor_execute {Portal : Type} (p : Option Portal) (SPI_result : Int) :
    Int × Option Portal :=
  match p with
  | none => (SPI_result, none)
  | some q => (SPI_OK, some q)

/-- Source: `int pg_spi_cursor_fetch(Portal portal)`: `SPI_processed` is the value of that global
after `SPI_cursor_fetch(portal, true, 1)`. -/
def pg_spi_cursor_fetch (SPI_processed : Nat) : Int :=
  if SPI_processed = 1 then SPI_OK_FETCH else SPI_OK

/-- The errors raised before the handshake has completed, that is on the paths of the
handler on which `init_ok` is still false: the catalog lookup, the null source, the
function that is not the bootstrap function, the counter mismatch, the failed load and the
failed connect.  The two remaining errors, of the type check and of invoke, are raised by
lines 160-173. -/
def Err.duringInit : Err → Bool
  | .cacheLookupFailed _ => true
  | .nullProsrc => true
  | .initIncomplete _ => true
  | .previousLoadFailed _ _ _ => true
  | .loadRuntimeFailed _ _ => true
  | .connectFailed _ => true
  | _ => false

/-! ## A sample hosted runtime

A concrete outside world on which the definitions can be evaluated.  Its state is the last
message of the hosted runtime. -/

/-- Sample connect callback: accepts every connection. -/
def sampleConnect : connfn String := fun w _ _ => (1, w)

/-- Sample type check: accepts a function when the catalog gives as many argument types as
`nargs`, and otherwise records a message. -/
def sampleCheck : checkfn String := fun w _ _ nargs argtyps _ =>
  if (argtyps.length : Int) = nargs then (1, w) else (0, "argument count mismatch")

/-- Sample invoke: `add` sums its arguments, `plandl_compile` returns 0, every other
function fails with a message and leaves `retval` alone. -/
def sampleInvoke : invokefn String := fun w _ name _ args retval =>
  if name = "add" then ((1, args.sum), w)
  else if name = "plandl_compile" then ((1, 0), w)
  else ((0, retval), "no such function")

/-- Sample get-message callback: the last message. -/
def sampleGetMessage : getmfn String := fun w _ => (w, w)

/-- The registration the sample runtime makes. -/
def sampleRegistration : Registration String :=
  { conn := some sampleConnect, check := some sampleCheck, invoke := some sampleInvoke,
    gm := some sampleGetMessage }

/-- A run of the loader in which every stage succeeds and the entry point makes the given
registrations. -/
def goodRun {W : Type} (rs : List (Registration W)) : ClrRun W :=
  { hrCreateInstance := 0, hrGetRuntime := 0, hrIsLoadable := 0, fLoadable := true,
    hrGetInterface := 0, hrStart := 0, hrExecute := 0, dwLengthRet := 0, registrations := rs }

/-- The sample world: the load succeeds and the runtime registers its callbacks once. -/
def sampleEnv : Env String :=
  { clr := fun w _ => (goodRun [sampleRegistration], w) }

/-- A world in which the load succeeds but the entry point never calls
`plandl_init_callback`. -/
def silentEnv (W : Type) : Env W :=
  { clr := fun w _ => (goodRun [], w) }

/-- A world in which the runtime is reported as not loadable. -/
def notLoadableEnv : Env String :=
  { clr := fun w _ => ({ goodRun [] with fLoadable := false }, w) }

/-- A call of the bootstrap function with source `"/path/to/module|optA=1"`. -/
def bootCall : Call :=
  { funcOid := 1,
    proc := some { proname := "plandl_compile", pronargs := 0, proargtypes := [],
                   prorettype := 25, prosrc := some "/path/to/module|optA=1" },
    args := [] }

/-- A call of `add(int, int) -> int` with arguments 2 and 3. -/
def addCall : Call :=
  { funcOid := 2,
    proc := some { proname := "add", pronargs := 2, proargtypes := [23, 23],
                   prorettype := 23, prosrc := some "" },
    args := [2, 3] }

/-- A call of a function declared with two argument types for which the catalog reports
three arguments. -/
def badArityCall : Call :=
  { funcOid := 3,
    proc := some { proname := "sub", pronargs := 3, proargtypes := [23, 23],
                   prorettype := 23, prosrc := some "" },
    args := [5, 1, 0] }

/-- The globals of the sample session once the handshake has completed: `_PG_init`
followed by the bootstrap call. -/
def readyState : State String :=
  (plandl_call_handler sampleEnv (_PG_init (State.fresh String)) "" bootCall).st

/-! ## The bootstrap descriptor -/

theorem strchr_none_iff (l : List Char) (c : Char) : strchr l c = none ↔ c ∉ l := by
  induction l with
  | nil => simp [strchr]
  | cons x xs ih =>
    by_cases h : x = c
    · simp [strchr, h]
    · simp [strchr, h, ih, Ne.symm h]

theorem strchr_some (l : List Char) (c : Char) (i : Nat) (h : strchr l c = some i) :
    c ∉ l.take i ∧ l.take i ++ c :: l.drop (i + 1) = l := by
  induction l generalizing i with
  | nil => simp [strchr] at h
  | cons x xs ih =>
    by_cases hx : x = c
    · simp [strchr, hx] at h
      subst h
      simp [hx]
    · simp only [strchr, hx, if_false] at h
      cases hs : strchr xs c with
      | none => simp [hs] at h
      | some j =>
        simp [hs] at h
        subst h
        have := ih j hs
        simp [Ne.symm hx, this.1]
        exact this.2

theorem strchr_append (a b : List Char) (c : Char) (h : c ∉ a) :
    strchr (a ++ c :: b) c = some a.length := by
  induction a with
  | nil => simp [strchr]
  | cons x xs ih =>
    have hx : x ≠ c := fun e => h (by simp [e])
    have hxs : c ∉ xs := fun e => h (by simp [e])
    simp [strchr, hx, ih hxs]

/-- C7: the bootstrap descriptor split of `plandl_call_handler`.  A descriptor without the
delimiter is the path, with empty options.  Otherwise the path is what stands before the
first delimiter and the options are everything after it: the path holds no delimiter,
path, delimiter and options concatenate to the descriptor, and whenever the descriptor is
written as `a ++ "|" ++ b` with no delimiter in `a`, the split is `(a, b)`.  The
descriptor `"/path/to/module|optA=1"` gives `"/path/to/module"` and `"optA=1"`. -/
theorem splitDescriptor_spec (s : String) :
    (OPTION_DELIM ∉ s.data → splitDescriptor s = (s, "")) ∧
    (OPTION_DELIM ∈ s.data →
      OPTION_DELIM ∉ (splitDescriptor s).1.data ∧
      (splitDescriptor s).1 ++ "|" ++ (splitDescriptor s).2 = s) ∧
    (∀ a b : String, OPTION_DELIM ∉ a.data → s = a ++ "|" ++ b → splitDescriptor s = (a, b)) ∧
    splitDescriptor "/path/to/module|optA=1" = ("/path/to/module", "optA=1") := by
  refine ⟨?_, ?_, ?_, by decide⟩
  · intro h
    have := (strchr_none_iff s.data OPTION_DELIM).2 h
    simp [splitDescriptor, this]
  · intro h
    cases hs : strchr s.data OPTION_DELIM with
    | none => exact absurd h ((strchr_none_iff _ _).1 hs)
    | some i =>
      have := strchr_some _ _ _ hs
      refine ⟨by simpa [splitDescriptor, hs] using this.1, ?_⟩
      apply String.ext
      simp only [splitDescriptor, hs, String.data_append]
      have h2 : OPTION_DELIM = '|' := rfl
      simpa [h2] using this.2
  · intro a b ha hab
    have h2 : OPTION_DELIM = '|' := rfl
    have hd : s.data = a.data ++ OPTION_DELIM :: b.data := by
      rw [hab]; simp [String.data_append, h2]
    have hs := strchr_append a.data b.data OPTION_DELIM ha
    rw [← hd] at hs
    have e1 : List.take a.data.length s.data = a.data := by rw [hd]; simp
    have e2 : List.drop (a.data.length + 1) s.data = b.data := by
      rw [hd, ← List.drop_drop]; simp
    simp only [splitDescriptor, hs, e1, e2]

/-- Witness for `splitDescriptor_spec`: the descriptor `"a|b|c"` is cut at its first
delimiter only. -/
theorem splitDescriptor_spec_witness :
    splitDescriptor "a|b|c" = ("a", "b|c") ∧ OPTION_DELIM ∉ ("a" : String).data := by
  have h := splitDescriptor_spec "a|b|c"
  exact ⟨h.2.2.1 "a" "b|c" (by decide) (by decide), by decide⟩

/-! ## The loader -/

theorem registerAll_init_ok {W : Type} (rs : List (Registration W)) (s : State W) :
    (registerAll s rs).init_ok = s.init_ok := by
  induction rs generalizing s with
  | nil => rfl
  | cons r rs ih =>
    have := ih (plandl_init_callback s r).1
    simpa [registerAll, plandl_init_callback, incr_init] using this

theorem incr32_eq (i : Int) (h : i < 2147483647) : incr32 i = i + 1 := by
  unfold incr32
  rw [if_neg (by omega)]

/-- The wrapped value of a counter that has been incremented once more. -/
theorem toInt32_succ (n : Nat) : toInt32 (n + 1) = incr32 (toInt32 n) := by
  unfold toInt32 incr32
  split_ifs <;> omega

theorem toInt32_small (n : Nat) (h : n ≤ 2147483647) : toInt32 n = n := by
  unfold toInt32
  split_ifs <;> omega

/-- The statement `++init` keeps `init` equal to the wrapped number of increments. -/
theorem incr_init_counted {W : Type} (s : State W) (h : s.init = toInt32 s.incs) :
    (incr_init s).init = toInt32 (incr_init s).incs := by
  show incr32 s.init = toInt32 (s.incs + 1)
  rw [toInt32_succ, h]

/-- Every registration is one increment. -/
theorem registerAll_incs {W : Type} (rs : List (Registration W)) (s : State W) :
    (registerAll s rs).incs = s.incs + rs.length := by
  induction rs generalizing s with
  | nil => rfl
  | cons r rs ih =>
    have := ih (plandl_init_callback s r).1
    have h2 : (plandl_init_callback s r).1.incs = s.incs + 1 := rfl
    simp only [registerAll, List.foldl_cons, List.length_cons] at this ⊢
    rw [this, h2]
    omega

/-- The registrations keep `init` equal to the wrapped number of increments. -/
theorem registerAll_counted {W : Type} (rs : List (Registration W)) (s : State W)
    (h : s.init = toInt32 s.incs) :
    (registerAll s rs).init = toInt32 (registerAll s rs).incs := by
  induction rs generalizing s with
  | nil => exact h
  | cons r rs ih =>
    have h1 : (plandl_init_callback s r).1.init = toInt32 (plandl_init_callback s r).1.incs :=
      incr_init_counted s h
    have := ih (plandl_init_callback s r).1 h1
    simpa only [registerAll, List.foldl_cons] using this

/-- How `load_clr` ends: with `set_err` on the globals as they were or as the
registrations left them, or, when every stage succeeds, with return value 1. -/
theorem load_clr_cases {W : Type} (s : State W) (run : ClrRun W) :
    (run.succeeds = false ∧
      ∃ t e m, (t = s ∨ t = registerAll s run.registrations) ∧ load_clr s run = set_err t e m) ∨
    (run.succeeds = true ∧ load_clr s run =
      ({ registerAll s run.registrations with
          _lasterr := toInt32 run.dwLengthRet, _lastmsg := "OK" }, 1)) := by
  unfold load_clr ClrRun.succeeds
  by_cases h1 : FAILED run.hrCreateInstance = true
  · rw [if_pos h1]; exact Or.inl ⟨by simp [h1], s, _, _, Or.inl rfl, rfl⟩
  rw [if_neg h1]
  by_cases h2 : FAILED run.hrGetRuntime = true
  · rw [if_pos h2]; exact Or.inl ⟨by simp [h2], s, _, _, Or.inl rfl, rfl⟩
  rw [if_neg h2]
  by_cases h3 : FAILED run.hrIsLoadable = true
  · rw [if_pos h3]; exact Or.inl ⟨by simp [h3], s, _, _, Or.inl rfl, rfl⟩
  rw [if_neg h3]
  by_cases h4 : (!run.fLoadable) = true
  · rw [if_pos h4]
    refine Or.inl ⟨?_, s, _, _, Or.inl rfl, rfl⟩
    simp only [Bool.not_eq_true'] at h4
    simp [h4]
  rw [if_neg h4]
  by_cases h5 : FAILED run.hrGetInterface = true
  · rw [if_pos h5]; exact Or.inl ⟨by simp [h5], s, _, _, Or.inl rfl, rfl⟩
  rw [if_neg h5]
  by_cases h6 : FAILED run.hrStart = true
  · rw [if_pos h6]; exact Or.inl ⟨by simp [h6], s, _, _, Or.inl rfl, rfl⟩
  rw [if_neg h6]
  by_cases h7 : FAILED run.hrExecute = true
  · simp only [if_pos h7]; exact Or.inl ⟨by simp [h7], _, _, _, Or.inr rfl, rfl⟩
  simp only [if_neg h7]
  refine Or.inr ⟨?_, trivial⟩
  simp_all

/-- The return value of `load_clr` is 1 when every stage succeeds and 0 otherwise. -/
theorem load_clr_ret {W : Type} (s : State W) (run : ClrRun W) :
    (load_clr s run).2 = if run.succeeds then 1 else 0 := by
  rcases load_clr_cases s run with ⟨hs, t, e, m, _, h⟩ | ⟨hs, h⟩
  · rw [h, hs]; rfl
  · rw [h, hs]; rfl

/-- The loader never writes `init_ok`. -/
theorem load_clr_init_ok {W : Type} (s : State W) (run : ClrRun W) :
    (load_clr s run).1.init_ok = s.init_ok := by
  rcases load_clr_cases s run with ⟨_, t, e, m, ht, h⟩ | ⟨_, h⟩
  · rw [h]
    show t.init_ok = s.init_ok
    rcases ht with ht | ht
    · rw [ht]
    · rw [ht]; exact registerAll_init_ok run.registrations s
  · rw [h]
    show (registerAll s run.registrations).init_ok = s.init_ok
    exact registerAll_init_ok run.registrations s

/-- The loader never decreases the number of increments. -/
theorem load_clr_incs_le {W : Type} (s : State W) (run : ClrRun W) :
    s.incs ≤ (load_clr s run).1.incs := by
  have hr : s.incs ≤ (registerAll s run.registrations).incs := by
    rw [registerAll_incs]; omega
  rcases load_clr_cases s run with ⟨_, t, e, m, ht, h⟩ | ⟨_, h⟩
  · rw [h]
    show s.incs ≤ t.incs
    rcases ht with ht | ht
    · rw [ht]
    · rw [ht]; exact hr
  · rw [h]
    exact hr

/-- The loader keeps `init` equal to the wrapped number of increments. -/
theorem load_clr_counted {W : Type} (s : State W) (run : ClrRun W)
    (hc : s.init = toInt32 s.incs) :
    (load_clr s run).1.init = toInt32 (load_clr s run).1.incs := by
  have hr := registerAll_counted run.registrations s hc
  rcases load_clr_cases s run with ⟨_, t, e, m, ht, h⟩ | ⟨_, h⟩
  · rw [h]
    show t.init = toInt32 t.incs
    rcases ht with ht | ht
    · rw [ht]; exact hc
    · rw [ht]; exact hr
  · rw [h]
    exact hr

/-- The globals after a successful load. -/
theorem load_clr_succeeds {W : Type} (s : State W) (run : ClrRun W)
    (h : run.succeeds = true) :
    load_clr s run =
      ({ registerAll s run.registrations with
          _lasterr := toInt32 run.dwLengthRet, _lastmsg := "OK" }, 1) := by
  rcases load_clr_cases s run with ⟨hs, _⟩ | ⟨_, h2⟩
  · rw [h] at hs; cases hs
  · exact h2

/-- The external calls of a successful load: `load_clr` itself, then the registrations. -/
theorem load_clr_events_succeeds {W : Type} (path : String) (run : ClrRun W)
    (h : run.succeeds = true) :
    load_clr_events path run =
      Event.load_clr path :: run.registrations.map (fun _ => Event.init_callback) := by
  unfold ClrRun.succeeds at h
  simp only [Bool.and_eq_true, Bool.not_eq_true'] at h
  obtain ⟨⟨⟨⟨⟨⟨h1, h2⟩, h3⟩, h4⟩, h5⟩, h6⟩, h7⟩ := h
  simp [load_clr_events, h1, h2, h3, h4, h5, h6]

/-! ## The call handler -/

/-- Lines 160-173 leave the globals alone. -/
theorem call_function_st {W : Type} (s : State W) (w : W) (p : ProcEntry) (args : List Datum)
    (ev0 : List Event) : (call_function s w p args ev0).st = s := by
  unfold call_function
  cases s.pfn_typecheck with
  | none => rfl
  | some chk =>
    cases s.pfn_invoke <;> cases s.pfn_getmessage <;> simp only [] <;> split_ifs <;> rfl

/-- C2: while `init_ok` is false, a call for a function whose name is not
`plandl_compile` aborts with `initialisation incomplete: function '<name>'`; it makes no
external call (neither `load_clr` nor any of the four callbacks), leaves the outside world
as it was, and leaves `init_ok` and the four callback slots unchanged. -/
theorem not_ready_rejects {W : Type} (env : Env W) (s : State W) (w : W) (c : Call)
    (p : ProcEntry) (hok : s.init_ok = false) (hp : c.proc = some p)
    (hn : p.proname ≠ INIT_NAME) :
    (plandl_call_handler env s w c).res = .error (.initIncomplete p.proname) ∧
    (Err.initIncomplete p.proname).render =
      "initialisation incomplete: function \x27" ++ p.proname ++ "\x27" ∧
    (plandl_call_handler env s w c).ev = [] ∧
    (plandl_call_handler env s w c).w = w ∧
    (plandl_call_handler env s w c).st.init_ok = false ∧
    (plandl_call_handler env s w c).st.pfn_connect = s.pfn_connect ∧
    (plandl_call_handler env s w c).st.pfn_typecheck = s.pfn_typecheck ∧
    (plandl_call_handler env s w c).st.pfn_invoke = s.pfn_invoke ∧
    (plandl_call_handler env s w c).st.pfn_getmessage = s.pfn_getmessage := by
  have h : plandl_call_handler env s w c =
      ⟨incr_init s, w, [], .error (.initIncomplete p.proname)⟩ := by
    simp [plandl_call_handler, hp, hok, hn, incr_init]
  rw [h]
  exact ⟨rfl, rfl, rfl, rfl, hok, rfl, rfl, rfl, rfl⟩

/-- With `init_ok` true the handler goes straight to lines 160-173. -/
theorem handler_ready {W : Type} (env : Env W) (s : State W) (w : W) (c : Call)
    (p : ProcEntry) (hok : s.init_ok = true) (hp : c.proc = some p) :
    plandl_call_handler env s w c =
      call_function (incr_init s) w p c.args [] := by
  simp [plandl_call_handler, hp, hok, incr_init]

/-- C5: a call handled with `init_ok` true, for a function found in the catalog and with
the type-check, invoke and get-message slots set.  `pfn_typecheck` is called first, with
`(17, name, nargs, argument type ids, return type id)`.  `pfn_invoke` is called, with
`(17, name, nargs, args, &retval)`, exactly when the type check returned non-zero.  The
handler returns exactly when both returned non-zero, and then returns what invoke left in
`retval`.  Otherwise it aborts with `(Type check) m` respectively `(Invoke) m`, where `m`
is what `pfn_getmessage(17)` returns at that point. -/
theorem ready_call_protocol {W : Type} (env : Env W) (s : State W) (w : W) (c : Call)
    (p : ProcEntry) (chk : checkfn W) (inv : invokefn W) (gm : getmfn W)
    (hok : s.init_ok = true) (hp : c.proc = some p)
    (hchk : s.pfn_typecheck = some chk) (hinv : s.pfn_invoke = some inv)
    (hgm : s.pfn_getmessage = some gm) :
    (plandl_call_handler env s w c).ev.head? =
      some (Event.typecheck 17 p.proname p.pronargs p.proargtypes p.prorettype) ∧
    ((∃ e ∈ (plandl_call_handler env s w c).ev, ∃ h n k a, e = Event.invoke h n k a) ↔
      (chk w 17 p.proname p.pronargs p.proargtypes p.prorettype).1 ≠ 0) ∧
    ((∃ d, (plandl_call_handler env s w c).res = .ok d) ↔
      (chk w 17 p.proname p.pronargs p.proargtypes p.prorettype).1 ≠ 0 ∧
      (inv (chk w 17 p.proname p.pronargs p.proargtypes p.prorettype).2 17 p.proname
        p.pronargs c.args 0).1.1 ≠ 0) ∧
    ((chk w 17 p.proname p.pronargs p.proargtypes p.prorettype).1 = 0 →
      (plandl_call_handler env s w c).res =
        .error (.typeCheck
          (gm (chk w 17 p.proname p.pronargs p.proargtypes p.prorettype).2 17).1) ∧
      (plandl_call_handler env s w c).ev =
        [Event.typecheck 17 p.proname p.pronargs p.proargtypes p.prorettype,
         Event.getmessage 17]) ∧
    ((chk w 17 p.proname p.pronargs p.proargtypes p.prorettype).1 ≠ 0 →
      (inv (chk w 17 p.proname p.pronargs p.proargtypes p.prorettype).2 17 p.proname
        p.pronargs c.args 0).1.1 = 0 →
      (plandl_call_handler env s w c).res =
        .error (.invoke
          (gm (inv (chk w 17 p.proname p.pronargs p.proargtypes p.prorettype).2 17 p.proname
            p.pronargs c.args 0).2 17).1) ∧
      (plandl_call_handler env s w c).ev =
        [Event.typecheck 17 p.proname p.pronargs p.proargtypes p.prorettype,
         Event.invoke 17 p.proname p.pronargs c.args, Event.getmessage 17]) ∧
    ((chk w 17 p.proname p.pronargs p.proargtypes p.prorettype).1 ≠ 0 →
      (inv (chk w 17 p.proname p.pronargs p.proargtypes p.prorettype).2 17 p.proname
        p.pronargs c.args 0).1.1 ≠ 0 →
      (plandl_call_handler env s w c).res =
        .ok (inv (chk w 17 p.proname p.pronargs p.proargtypes p.prorettype).2 17 p.proname
          p.pronargs c.args 0).1.2 ∧
      (plandl_call_handler env s w c).ev =
        [Event.typecheck 17 p.proname p.pronargs p.proargtypes p.prorettype,
         Event.invoke 17 p.proname p.pronargs c.args]) := by
  rw [handler_ready env s w c p hok hp]
  have e1 : (incr_init s).pfn_typecheck = some chk := hchk
  have e2 : (incr_init s).pfn_invoke = some inv := hinv
  have e3 : (incr_init s).pfn_getmessage = some gm := hgm
  by_cases h1 : (chk w 17 p.proname p.pronargs p.proargtypes p.prorettype).1 = 0
  · simp [call_function, e1, e2, e3, myinst, h1]
  · by_cases h2 : (inv (chk w 17 p.proname p.pronargs p.proargtypes p.prorettype).2 17
        p.proname p.pronargs c.args 0).1.1 = 0
    · simp [call_function, e1, e2, e3, myinst, h1, h2]
    · simp [call_function, e1, e2, e3, myinst, h1, h2]

/-- The counter check of `handler_init`: unless `init` becomes 3, it aborts at once. -/
theorem handler_init_mismatch {W : Type} (env : Env W) (s : State W) (w : W)
    (path options : String) (h : incr32 s.init ≠ 3) :
    handler_init env s w path options =
      ⟨incr_init s, w, [],
        .error (.previousLoadFailed (incr32 s.init) s._lasterr s._lastmsg)⟩ := by
  have h2 : (incr_init s).init ≠ 3 := h
  unfold handler_init
  simp only []
  rw [if_pos h2]
  rfl

/-- The function `handler_init` never sets `init_ok` to false; it sets it to true exactly
when it returns; it keeps `init` equal to the wrapped number of increments; and it
increments at least once. -/
theorem handler_init_st {W : Type} (env : Env W) (s : State W) (w : W)
    (path options : String) :
    ((handler_init env s w path options).res = .ok () →
      (handler_init env s w path options).st.init_ok = true) ∧
    ((handler_init env s w path options).res ≠ .ok () →
      (handler_init env s w path options).st.init_ok = s.init_ok) ∧
    (s.init = toInt32 s.incs →
      (handler_init env s w path options).st.init =
        toInt32 (handler_init env s w path options).st.incs) ∧
    s.incs + 1 ≤ (handler_init env s w path options).st.incs := by
  have hl := load_clr_init_ok (incr_init s) (env.clr w path).1
  have hi := fun hc => load_clr_counted (incr_init s) (env.clr w path).1
    (incr_init_counted s hc)
  have hm : s.incs + 1 ≤ (load_clr (incr_init s) (env.clr w path).1).1.incs :=
    load_clr_incs_le (incr_init s) (env.clr w path).1
  have h0 : (incr_init s).init_ok = s.init_ok := rfl
  rw [h0] at hl
  unfold handler_init
  simp only []
  split_ifs with h1 h2
  · exact ⟨by simp, fun _ => rfl, fun hc => incr_init_counted s hc, le_refl _⟩
  · exact ⟨by simp, fun _ => hl, hi, hm⟩
  · split
    · exact ⟨by simp, fun _ => hl, hi, hm⟩
    · split_ifs with h3
      · split
        · exact ⟨by simp, fun _ => hl, hi, hm⟩
        · exact ⟨by simp, fun _ => hl, hi, hm⟩
      · exact ⟨fun _ => rfl, by simp, hi, hm⟩

/-- The handler never sets `init_ok` from true to false. -/
theorem handler_keeps_ok {W : Type} (env : Env W) (s : State W) (w : W) (c : Call)
    (hok : s.init_ok = true) :
    (plandl_call_handler env s w c).st.init_ok = true ∧
    (plandl_call_handler env s w c).st.pfn_connect = s.pfn_connect ∧
    (plandl_call_handler env s w c).st.pfn_typecheck = s.pfn_typecheck ∧
    (plandl_call_handler env s w c).st.pfn_invoke = s.pfn_invoke ∧
    (plandl_call_handler env s w c).st.pfn_getmessage = s.pfn_getmessage := by
  cases hp : c.proc with
  | none => simp [plandl_call_handler, hp, hok, incr_init]
  | some p =>
    rw [handler_ready env s w c p hok hp, call_function_st]
    exact ⟨hok, rfl, rfl, rfl, rfl⟩

/-- Witness for `not_ready_rejects`: before the handshake, a call of `add` in the sample
world is rejected. -/
theorem not_ready_rejects_witness :
    (plandl_call_handler sampleEnv (_PG_init (State.fresh String)) "" addCall).res =
      .error (.initIncomplete "add") ∧
    (plandl_call_handler sampleEnv (_PG_init (State.fresh String)) "" addCall).ev = [] :=
  have h := not_ready_rejects sampleEnv (_PG_init (State.fresh String)) "" addCall
    { proname := "add", pronargs := 2, proargtypes := [23, 23], prorettype := 23,
      prosrc := some "" } rfl rfl (by decide)
  ⟨h.1, h.2.2.1⟩

/-- Witness for `ready_call_protocol`: in the sample session `add(2, 3)` runs the type
check and then invoke. -/
theorem ready_call_protocol_witness :
    (plandl_call_handler sampleEnv readyState "" addCall).ev.head? =
      some (Event.typecheck 17 "add" 2 [23, 23] 23) ∧
    (plandl_call_handler sampleEnv readyState "" addCall).res = .ok 5 :=
  have h := ready_call_protocol sampleEnv readyState "" addCall
    { proname := "add", pronargs := 2, proargtypes := [23, 23], prorettype := 23,
      prosrc := some "" } sampleCheck sampleInvoke sampleGetMessage
    (by decide) rfl rfl rfl rfl
  ⟨h.1, (h.2.2.2.2.2 (by decide) (by decide)).1⟩

/-- C6: a call handled with `init_ok` true, however it ends (in particular when it aborts
because the type check or invoke returned 0), leaves `init_ok` true and the four callback
slots unchanged.  Hence a call that follows it immediately and whose type check and invoke
both return non-zero returns the value invoke left in `retval`.  And no operation of the
module (`_PG_init`, `plandl_init_callback`, `set_err`, `load_clr`, `handler_init`,
`plandl_call_handler`) sets `init_ok` from true back to false. -/
theorem failed_call_keeps_ready {W : Type} (env : Env W) (s : State W) (w : W) (c : Call)
    (hok : s.init_ok = true) :
    ((plandl_call_handler env s w c).st.init_ok = true ∧
      (plandl_call_handler env s w c).st.pfn_connect = s.pfn_connect ∧
      (plandl_call_handler env s w c).st.pfn_typecheck = s.pfn_typecheck ∧
      (plandl_call_handler env s w c).st.pfn_invoke = s.pfn_invoke ∧
      (plandl_call_handler env s w c).st.pfn_getmessage = s.pfn_getmessage) ∧
    (∀ (c2 : Call) (p2 : ProcEntry) (chk : checkfn W) (inv : invokefn W),
      c2.proc = some p2 → s.pfn_typecheck = some chk → s.pfn_invoke = some inv →
      (chk (plandl_call_handler env s w c).w 17 p2.proname p2.pronargs p2.proargtypes
        p2.prorettype).1 ≠ 0 →
      (inv (chk (plandl_call_handler env s w c).w 17 p2.proname p2.pronargs p2.proargtypes
        p2.prorettype).2 17 p2.proname p2.pronargs c2.args 0).1.1 ≠ 0 →
      (plandl_call_handler env (plandl_call_handler env s w c).st
        (plandl_call_handler env s w c).w c2).res =
        .ok (inv (chk (plandl_call_handler env s w c).w 17 p2.proname p2.pronargs
          p2.proargtypes p2.prorettype).2 17 p2.proname p2.pronargs c2.args 0).1.2) ∧
    (∀ t : State W, t.init_ok = true →
      (_PG_init t).init_ok = true ∧
      (∀ r, (plandl_init_callback t r).1.init_ok = true) ∧
      (∀ e m, (set_err t e m).1.init_ok = true) ∧
      (∀ run, (load_clr t run).1.init_ok = true) ∧
      (∀ env2 w2 path options, (handler_init env2 t w2 path options).st.init_ok = true) ∧
      (∀ env2 w2 c2, (plandl_call_handler env2 t w2 c2).st.init_ok = true)) := by
  have hk := handler_keeps_ok env s w c hok
  refine ⟨hk, ?_, ?_⟩
  · intro c2 p2 chk inv hp2 hchk hinv h1 h2
    rw [handler_ready env _ _ c2 p2 hk.1 hp2]
    have e1 : (incr_init (plandl_call_handler env s w c).st).pfn_typecheck = some chk := by
      show (plandl_call_handler env s w c).st.pfn_typecheck = some chk
      rw [hk.2.2.1]; exact hchk
    have e2 : (incr_init (plandl_call_handler env s w c).st).pfn_invoke = some inv := by
      show (plandl_call_handler env s w c).st.pfn_invoke = some inv
      rw [hk.2.2.2.1]; exact hinv
    have h1' := h1
    have h2' := h2
    simp only [show (17 : Int) = myinst from rfl] at h1' h2' ⊢
    simp [call_function, e1, e2, h1', h2']
  · intro t ht
    refine ⟨ht, fun _ => ht, fun _ _ => ht, fun run => ?_, fun env2 w2 path options => ?_,
      fun env2 w2 c2 => (handler_keeps_ok env2 t w2 c2 ht).1⟩
    · rw [load_clr_init_ok]; exact ht
    · have h := handler_init_st env2 t w2 path options
      by_cases hr : (handler_init env2 t w2 path options).res = .ok ()
      · exact h.1 hr
      · rw [h.2.1 hr]; exact ht

/-- Witness for `failed_call_keeps_ready`: in the sample session the call with the wrong
argument count aborts, and `add(2, 3)` right after it returns 5. -/
theorem failed_call_keeps_ready_witness :
    (plandl_call_handler sampleEnv readyState "" badArityCall).res =
      .error (.typeCheck "argument count mismatch") ∧
    (plandl_call_handler sampleEnv
      (plandl_call_handler sampleEnv readyState "" badArityCall).st
      (plandl_call_handler sampleEnv readyState "" badArityCall).w addCall).res = .ok 5 :=
  have h := failed_call_keeps_ready sampleEnv readyState "" badArityCall (by decide)
  ⟨by decide,
   h.2.1 addCall
    { proname := "add", pronargs := 2, proargtypes := [23, 23], prorettype := 23,
      prosrc := some "" } sampleCheck sampleInvoke rfl rfl rfl (by decide) (by decide)⟩

/-! ## The handshake -/

/-- The function `handler_init` entered with `init = 2`, when the load succeeds with one
registration and connect returns non-zero: the counter check passes, and the function
returns with `init_ok` set. -/
theorem handler_init_success {W : Type} (env : Env W) (s : State W) (w : W)
    (path options : String) (reg : Registration W) (conn : connfn W)
    (hinit : s.init = 2)
    (hrun : (env.clr w path).1.succeeds = true)
    (hreg : (env.clr w path).1.registrations = [reg])
    (hconn : reg.conn = some conn)
    (hrc : (conn (env.clr w path).2 myinst options).1 ≠ 0) :
    handler_init env s w path options =
      ⟨{ init := 4, init_ok := true, pfn_connect := reg.conn, pfn_typecheck := reg.check,
         pfn_invoke := reg.invoke, pfn_getmessage := reg.gm,
         _lasterr := toInt32 (env.clr w path).1.dwLengthRet, _lastmsg := "OK",
         incs := s.incs + 2 },
       (conn (env.clr w path).2 myinst options).2,
       [Event.load_clr path, Event.init_callback, Event.connect myinst options],
       .ok ()⟩ := by
  have h3 : (incr_init s).init = 3 := by
    show incr32 s.init = 3
    rw [hinit]; decide
  unfold handler_init
  simp only [h3, load_clr_succeeds _ _ hrun, load_clr_events_succeeds _ _ hrun, hreg,
    registerAll, plandl_init_callback, List.foldl_cons, List.foldl_nil, hconn]
  simp [hrc, incr_init, h3, hinit, incr32]

/-- While `init_ok` is false, a call of `plandl_compile` with a non-null source runs
`handler_init` on the split descriptor and, when that returns, goes on with lines
160-173. -/
theorem handler_bootstrap {W : Type} (env : Env W) (s : State W) (w : W) (c : Call)
    (p : ProcEntry) (src : String) (hok : s.init_ok = false) (hp : c.proc = some p)
    (hname : p.proname = INIT_NAME) (hsrc : p.prosrc = some src) :
    plandl_call_handler env s w c =
      match (handler_init env (incr_init s) w (splitDescriptor src).1
          (splitDescriptor src).2).res with
      | .ok _ =>
        call_function
          (handler_init env (incr_init s) w (splitDescriptor src).1
            (splitDescriptor src).2).st
          (handler_init env (incr_init s) w (splitDescriptor src).1
            (splitDescriptor src).2).w p c.args
          (handler_init env (incr_init s) w (splitDescriptor src).1
            (splitDescriptor src).2).ev
      | .error e =>
        ⟨(handler_init env (incr_init s) w (splitDescriptor src).1
            (splitDescriptor src).2).st,
         (handler_init env (incr_init s) w (splitDescriptor src).1
            (splitDescriptor src).2).w,
         (handler_init env (incr_init s) w (splitDescriptor src).1
            (splitDescriptor src).2).ev, .error e⟩
      | .fault f =>
        ⟨(handler_init env (incr_init s) w (splitDescriptor src).1
            (splitDescriptor src).2).st,
         (handler_init env (incr_init s) w (splitDescriptor src).1
            (splitDescriptor src).2).w,
         (handler_init env (incr_init s) w (splitDescriptor src).1
            (splitDescriptor src).2).ev, .fault f⟩ := by
  have h1 : (!(incr_init s).init_ok) = true := by
    show (!s.init_ok) = true
    rw [hok]; rfl
  unfold plandl_call_handler
  simp only [hp]
  rw [if_pos h1, if_pos hname]
  simp only [hsrc]

/-- C4: a fresh session (`init = 0`, `init_ok = false`, then `_PG_init` once) whose first
call is `plandl_compile`, where the load succeeds, the entry point calls
`plandl_init_callback` exactly once (registering connect, type-check and invoke
callbacks), and the registered connect callback returns non-zero for `(17, options)`.
The counter is 3 at the check of `handler_init`, which returns; `init_ok` becomes true
(and `init` ends at 4, with the registered callbacks in the slots); and the same call goes
on with lines 160-173 for `plandl_compile` itself: after `load_clr`, the registration and
connect, it calls the type check with `(17, "plandl_compile", nargs, argument types,
return type)` and, when that returns non-zero, invoke with
`(17, "plandl_compile", nargs, args, &retval)`. -/
theorem fresh_bootstrap_ready {W : Type} (env : Env W) (w : W) (c : Call) (p : ProcEntry)
    (src : String) (reg : Registration W) (conn : connfn W) (chk : checkfn W)
    (inv : invokefn W)
    (hp : c.proc = some p) (hname : p.proname = INIT_NAME) (hsrc : p.prosrc = some src)
    (hrun : (env.clr w (splitDescriptor src).1).1.succeeds = true)
    (hreg : (env.clr w (splitDescriptor src).1).1.registrations = [reg])
    (hconn : reg.conn = some conn) (hchk : reg.check = some chk) (hinv : reg.invoke = some inv)
    (hrc : (conn (env.clr w (splitDescriptor src).1).2 17 (splitDescriptor src).2).1 ≠ 0) :
    (incr_init (incr_init (_PG_init (State.fresh W)))).init = 3 ∧
    (handler_init env (incr_init (_PG_init (State.fresh W)))
      w (splitDescriptor src).1 (splitDescriptor src).2).res = .ok () ∧
    (plandl_call_handler env (_PG_init (State.fresh W)) w c).st.init_ok = true ∧
    (plandl_call_handler env (_PG_init (State.fresh W)) w c).st.init = 4 ∧
    (plandl_call_handler env (_PG_init (State.fresh W)) w c).st.pfn_typecheck = reg.check ∧
    (plandl_call_handler env (_PG_init (State.fresh W)) w c).st.pfn_invoke = reg.invoke ∧
    plandl_call_handler env (_PG_init (State.fresh W)) w c =
      call_function
        (handler_init env (incr_init (_PG_init (State.fresh W)))
          w (splitDescriptor src).1 (splitDescriptor src).2).st
        (conn (env.clr w (splitDescriptor src).1).2 17 (splitDescriptor src).2).2
        p c.args
        [Event.load_clr (splitDescriptor src).1, Event.init_callback,
         Event.connect 17 (splitDescriptor src).2] ∧
    (plandl_call_handler env (_PG_init (State.fresh W)) w c).ev.take 4 =
      [Event.load_clr (splitDescriptor src).1, Event.init_callback,
       Event.connect 17 (splitDescriptor src).2,
       Event.typecheck 17 INIT_NAME p.pronargs p.proargtypes p.prorettype] ∧
    ((chk (conn (env.clr w (splitDescriptor src).1).2 17 (splitDescriptor src).2).2 17
        INIT_NAME p.pronargs p.proargtypes p.prorettype).1 ≠ 0 →
      (plandl_call_handler env (_PG_init (State.fresh W)) w c).ev.take 5 =
        [Event.load_clr (splitDescriptor src).1, Event.init_callback,
         Event.connect 17 (splitDescriptor src).2,
         Event.typecheck 17 INIT_NAME p.pronargs p.proargtypes p.prorettype,
         Event.invoke 17 INIT_NAME p.pronargs c.args]) := by
  have hs := handler_init_success env (incr_init (_PG_init (State.fresh W)))
    w (splitDescriptor src).1 (splitDescriptor src).2 reg conn
    (by simp [incr_init, _PG_init, State.fresh, incr32])
    hrun hreg hconn hrc
  have hh : plandl_call_handler env (_PG_init (State.fresh W)) w c =
      call_function
        (handler_init env (incr_init (_PG_init (State.fresh W)))
          w (splitDescriptor src).1 (splitDescriptor src).2).st
        (conn (env.clr w (splitDescriptor src).1).2 17 (splitDescriptor src).2).2
        p c.args
        [Event.load_clr (splitDescriptor src).1, Event.init_callback,
         Event.connect 17 (splitDescriptor src).2] := by
    rw [handler_bootstrap env _ w c p src rfl hp hname hsrc, hs]
    rfl
  refine ⟨by simp [incr_init, _PG_init, State.fresh, incr32], by rw [hs],
    ?_, ?_, ?_, ?_, hh, ?_, ?_⟩
  · rw [hh, call_function_st, hs]
  · rw [hh, call_function_st, hs]
  · rw [hh, call_function_st, hs]
  · rw [hh, call_function_st, hs]
  · rw [hh, hs]
    unfold call_function
    simp only [hchk, hname, myinst]
    split_ifs <;> (try split) <;> (try split_ifs) <;> (try split) <;> simp
  · intro h1
    rw [hh, hs]
    unfold call_function
    simp only [hchk, hinv, hname, myinst]
    have h1' := h1
    simp only [myinst] at h1'
    simp only [h1', if_false]
    split_ifs <;> (try split) <;> simp

/-- Witness for `fresh_bootstrap_ready`: the sample session. -/
theorem fresh_bootstrap_ready_witness :
    (plandl_call_handler sampleEnv (_PG_init (State.fresh String)) "" bootCall).st.init_ok
      = true ∧
    (plandl_call_handler sampleEnv (_PG_init (State.fresh String)) "" bootCall).ev.take 5 =
      [Event.load_clr "/path/to/module", Event.init_callback, Event.connect 17 "optA=1",
       Event.typecheck 17 "plandl_compile" 0 [] 25, Event.invoke 17 "plandl_compile" 0 []] :=
  have h := fresh_bootstrap_ready sampleEnv "" bootCall
    { proname := "plandl_compile", pronargs := 0, proargtypes := [], prorettype := 25,
      prosrc := some "/path/to/module|optA=1" } "/path/to/module|optA=1"
    sampleRegistration sampleConnect sampleCheck sampleInvoke rfl rfl rfl (by decide)
    rfl rfl rfl rfl (by decide)
  ⟨h.2.2.1, h.2.2.2.2.2.2.2.2 (by decide)⟩

/-- C3 (the code at the failing input): the load succeeds but the entry point never calls
`plandl_init_callback`.  The bootstrap call of a fresh session then calls through
`pfn_connect`, which is still `0`: a null call, not an `elog(ERROR, ...)`.  The only
external call made before it is `load_clr`, and `init_ok` is still false. -/
theorem missing_registration_null_call :
    (plandl_call_handler (silentEnv String) (_PG_init (State.fresh String)) "" bootCall).res
      = .fault .nullCall ∧
    (plandl_call_handler (silentEnv String) (_PG_init (State.fresh String)) "" bootCall).ev
      = [Event.load_clr "/path/to/module"] ∧
    (plandl_call_handler (silentEnv String) (_PG_init (State.fresh String)) ""
      bootCall).st.pfn_connect.isNone = true ∧
    (plandl_call_handler (silentEnv String) (_PG_init (State.fresh String)) ""
      bootCall).st.init_ok = false := by
  decide

/-- The missing null check, for every world: when `handler_init` passes the counter check
and the load succeeds without any registration while `pfn_connect` is `0`, the function
calls through the null pointer. -/
theorem handler_init_null_connect {W : Type} (env : Env W) (s : State W) (w : W)
    (path options : String) (hinit : s.init = 2) (hnull : s.pfn_connect = none)
    (hrun : (env.clr w path).1.succeeds = true)
    (hreg : (env.clr w path).1.registrations = []) :
    (handler_init env s w path options).res = .fault .nullCall ∧
    (handler_init env s w path options).ev = [Event.load_clr path] ∧
    (handler_init env s w path options).st.init_ok = s.init_ok := by
  have h3 : (incr_init s).init = 3 := by
    show incr32 s.init = 3
    rw [hinit]; decide
  have h4 : (incr_init s).pfn_connect = none := hnull
  unfold handler_init
  simp only [h3, load_clr_succeeds _ _ hrun, load_clr_events_succeeds _ _ hrun, hreg,
    registerAll, List.foldl_nil, h4]
  simp [incr_init]

/-! ## After a failed initialisation -/

/-- Lines 160-173 raise only the type-check and the invoke error, and call neither
`load_clr` nor `pfn_connect`. -/
theorem call_function_props {W : Type} (s : State W) (w : W) (p : ProcEntry)
    (args : List Datum) :
    (∀ e, (call_function s w p args []).res = .error e → e.duringInit = false) ∧
    (∀ x ∈ (call_function s w p args []).ev, x.isLoad = false ∧ x.isConnect = false) := by
  unfold call_function
  cases s.pfn_typecheck with
  | none => simp
  | some chk =>
    cases s.pfn_invoke <;> cases s.pfn_getmessage <;> simp only [] <;> split_ifs <;>
      simp [Err.duringInit, Event.isLoad, Event.isConnect]

/-- The counter of the model wraps like the 32-bit `int` of the code. -/
theorem incr32_wraps :
    incr32 2147483647 = -2147483648 ∧ incr32 (-1) = 0 ∧ toInt32 4294967299 = 3 := by
  decide

/-- The globals after a call of the handler are those after its `++init`, or those left
by `handler_init` entered after that `++init`. -/
theorem handler_st_cases {W : Type} (env : Env W) (s : State W) (w : W) (c : Call) :
    (plandl_call_handler env s w c).st = incr_init s ∨
    ∃ path options,
      (plandl_call_handler env s w c).st = (handler_init env (incr_init s) w path options).st
    := by
  cases hok : s.init_ok with
  | true =>
    cases hp : c.proc with
    | none => exact Or.inl (by simp [plandl_call_handler, hp])
    | some p => exact Or.inl (by rw [handler_ready env s w c p hok hp, call_function_st])
  | false =>
    cases hp : c.proc with
    | none => exact Or.inl (by simp [plandl_call_handler, hp])
    | some p =>
      by_cases hname : p.proname = INIT_NAME
      · cases hsrc : p.prosrc with
        | none =>
          have h0 : (incr_init s).init_ok = false := hok
          exact Or.inl (by simp [plandl_call_handler, hp, h0, hname, hsrc])
        | some src =>
          refine Or.inr ⟨(splitDescriptor src).1, (splitDescriptor src).2, ?_⟩
          rw [handler_bootstrap env s w c p src hok hp hname hsrc]
          split
          · rw [call_function_st]
          · rfl
          · rfl
      · have h0 : (incr_init s).init_ok = false := hok
        exact Or.inl (by simp [plandl_call_handler, hp, h0, hname])

/-- Every call of the handler keeps `init` equal to the wrapped number of increments, and
increments at least once. -/
theorem handler_counted {W : Type} (env : Env W) (s : State W) (w : W) (c : Call) :
    (s.init = toInt32 s.incs →
      (plandl_call_handler env s w c).st.init =
        toInt32 (plandl_call_handler env s w c).st.incs) ∧
    s.incs + 1 ≤ (plandl_call_handler env s w c).st.incs := by
  rcases handler_st_cases env s w c with h | ⟨path, options, h⟩
  · rw [h]
    exact ⟨incr_init_counted s, le_refl _⟩
  · rw [h]
    have h3 := handler_init_st env (incr_init s) w path options
    refine ⟨fun hc => h3.2.2.1 (incr_init_counted s hc), ?_⟩
    have h4 : (incr_init s).incs = s.incs + 1 := rfl
    have := h3.2.2.2
    omega

/-- Between two calls of a session, `init` is the wrapped number of increments, and there
have been more increments than calls of the handler. -/
theorem session_counted {W : Type} (env : Env W) (n : Nat) (s : State W) (w : W)
    (h : Session env n s w) : s.init = toInt32 s.incs ∧ n + 1 ≤ s.incs := by
  induction h with
  | start w => exact ⟨by simp [_PG_init, incr_init, State.fresh, incr32, toInt32], le_refl _⟩
  | @call k t v c _ _ ih =>
    have := handler_counted env t v c
    exact ⟨this.1 ih.1, by omega⟩
  | world w2 _ ih => exact ih

/-- With `init_ok` false and `init` at 2 or more, and as long as the two increments of a
call do not overflow the counter, every call aborts with an error raised before the
handshake has completed and makes no external call; a bootstrap call with a source aborts
with the counter mismatch. -/
theorem handler_failed_state {W : Type} (env : Env W) (s : State W) (w : W) (c : Call)
    (hok : s.init_ok = false) (hlo : 2 ≤ s.init) (hhi : s.init ≤ 2147483645) :
    (∃ e, (plandl_call_handler env s w c).res = .error e ∧ e.duringInit = true) ∧
    (plandl_call_handler env s w c).st.init_ok = false ∧
    (s.init + 1 ≤ (plandl_call_handler env s w c).st.init ∧
      (plandl_call_handler env s w c).st.init ≤ s.init + 2) ∧
    (plandl_call_handler env s w c).ev = [] ∧
    (plandl_call_handler env s w c).w = w ∧
    (∀ p, c.proc = some p → p.proname = INIT_NAME →
      (∀ src, p.prosrc = some src → (plandl_call_handler env s w c).res =
        .error (.previousLoadFailed (s.init + 2) s._lasterr s._lastmsg)) ∧
      (p.prosrc = none → (plandl_call_handler env s w c).res = .error .nullProsrc)) := by
  have h0 : (incr_init s).init_ok = false := hok
  have h1 : (incr_init s).init = s.init + 1 := incr32_eq s.init (by omega)
  have h2 : incr32 (incr_init s).init = s.init + 2 := by
    rw [h1, incr32_eq _ (by omega)]; ring
  have hb : s.init + 1 ≤ (incr_init s).init ∧ (incr_init s).init ≤ s.init + 2 := by
    rw [h1]; omega
  cases hp : c.proc with
  | none =>
    have h : plandl_call_handler env s w c =
        ⟨incr_init s, w, [], .error (.cacheLookupFailed c.funcOid)⟩ := by
      simp [plandl_call_handler, hp]
    rw [h]
    exact ⟨⟨_, rfl, rfl⟩, h0, hb, rfl, rfl, fun p hp2 => by cases hp2⟩
  | some p =>
    by_cases hname : p.proname = INIT_NAME
    · cases hsrc : p.prosrc with
      | none =>
        have h : plandl_call_handler env s w c = ⟨incr_init s, w, [], .error .nullProsrc⟩ := by
          simp [plandl_call_handler, hp, h0, hname, hsrc]
        rw [h]
        refine ⟨⟨_, rfl, rfl⟩, h0, hb, rfl, rfl, fun p2 hp2 _ => ?_⟩
        cases hp2
        exact ⟨fun src2 h3 => (by rw [hsrc] at h3; cases h3), fun _ => rfl⟩
      | some src =>
        have hm := handler_init_mismatch env (incr_init s) w
          (splitDescriptor src).1 (splitDescriptor src).2 (by rw [h2]; omega)
        have hb2 := handler_bootstrap env s w c p src hok hp hname hsrc
        rw [hm] at hb2
        simp only [] at hb2
        rw [hb2]
        refine ⟨⟨_, rfl, rfl⟩, h0, ?_, rfl, rfl, fun p2 hp2 _ => ?_⟩
        · show s.init + 1 ≤ incr32 (incr_init s).init ∧ incr32 (incr_init s).init ≤ s.init + 2
          rw [h2]; omega
        · cases hp2
          refine ⟨fun src2 _ => ?_, fun h3 => by rw [hsrc] at h3; cases h3⟩
          show Res.error (Err.previousLoadFailed (incr32 (incr_init s).init) s._lasterr
            s._lastmsg) = _
          rw [h2]
    · have h : plandl_call_handler env s w c =
          ⟨incr_init s, w, [], .error (.initIncomplete p.proname)⟩ := by
        simp [plandl_call_handler, hp, h0, hname]
      rw [h]
      exact ⟨⟨_, rfl, rfl⟩, h0, hb, rfl, rfl, fun p2 hp2 hn2 => by
        cases hp2; exact absurd hn2 hname⟩

/-- C1 (counterexample): in the sample session the first bootstrap call completes the
handshake and returns.  The second call of `plandl_compile` does not abort: it is type
checked and invoked like any other function and returns. -/
theorem second_bootstrap_not_rejected :
    (plandl_call_handler sampleEnv (_PG_init (State.fresh String)) "" bootCall).res = .ok 0 ∧
    (plandl_call_handler sampleEnv
      (plandl_call_handler sampleEnv (_PG_init (State.fresh String)) "" bootCall).st
      (plandl_call_handler sampleEnv (_PG_init (State.fresh String)) "" bootCall).w
      bootCall).res = .ok 0 ∧
    (plandl_call_handler sampleEnv
      (plandl_call_handler sampleEnv (_PG_init (State.fresh String)) "" bootCall).st
      (plandl_call_handler sampleEnv (_PG_init (State.fresh String)) "" bootCall).w
      bootCall).res.isError = false ∧
    (plandl_call_handler sampleEnv
      (plandl_call_handler sampleEnv (_PG_init (State.fresh String)) "" bootCall).st
      (plandl_call_handler sampleEnv (_PG_init (State.fresh String)) "" bootCall).w
      bootCall).ev =
      [Event.typecheck 17 "plandl_compile" 0 [] 25, Event.invoke 17 "plandl_compile" 0 []] := by
  decide

/-- C1 (amended): in a session started by `_PG_init`, take a call of `plandl_compile`
that comes after at least one earlier call of the handler.  While `init_ok` is false (the
earlier initialisation did not complete), and as long as the 32-bit counter does not
overflow (the increments made so far plus the two of this call stay within `INT_MAX`), the
call makes no external call, so it calls neither `load_clr` nor `pfn_connect`; it aborts
and leaves `init_ok` false: with the counter mismatch `Previous load failed ...` when its
source is not null, with `null prosrc` otherwise.  Once `init_ok` is true (the handshake
completed) it is not rejected: it takes lines 160-173 like any other function, again
without calling `load_clr` or `pfn_connect`, so the only errors it can raise are those of
the type check and of invoke. -/
theorem later_bootstrap_call {W : Type} (env : Env W) (n : Nat) (s : State W) (w : W)
    (hsess : Session env (n + 1) s w) (c : Call) (p : ProcEntry)
    (hp : c.proc = some p) (hname : p.proname = INIT_NAME) :
    (s.init_ok = false → s.incs + 2 ≤ 2147483647 →
      (plandl_call_handler env s w c).ev = [] ∧
      (∀ x ∈ (plandl_call_handler env s w c).ev, x.isLoad = false ∧ x.isConnect = false) ∧
      (∃ e, (plandl_call_handler env s w c).res = .error e) ∧
      (plandl_call_handler env s w c).st.init_ok = false ∧
      (∀ src, p.prosrc = some src → (plandl_call_handler env s w c).res =
        .error (.previousLoadFailed (s.init + 2) s._lasterr s._lastmsg)) ∧
      (p.prosrc = none → (plandl_call_handler env s w c).res = .error .nullProsrc)) ∧
    (s.init_ok = true →
      plandl_call_handler env s w c = call_function (incr_init s) w p c.args [] ∧
      (∀ x ∈ (plandl_call_handler env s w c).ev, x.isLoad = false ∧ x.isConnect = false) ∧
      ∀ e, (plandl_call_handler env s w c).res = .error e → e.duringInit = false) := by
  refine ⟨fun hok hbound => ?_, fun hok => ?_⟩
  · have h1 := session_counted env (n + 1) s w hsess
    have h4 : s.init = (s.incs : Int) := by
      rw [h1.1, toInt32_small _ (by omega)]
    have h := handler_failed_state env s w c hok (by rw [h4]; omega) (by rw [h4]; omega)
    obtain ⟨⟨e, he, _⟩, h2, _, h5, _, h6⟩ := h
    exact ⟨h5, by simp [h5], ⟨e, he⟩, h2, (h6 p hp hname).1, (h6 p hp hname).2⟩
  · have hr := handler_ready env s w c p hok hp
    have hc := call_function_props (incr_init s) w p c.args
    refine ⟨hr, by rw [hr]; exact hc.2, ?_⟩
    rw [hr]
    exact hc.1

/-- Witness for `later_bootstrap_call`: after a bootstrap call that failed because the
runtime is not loadable, the next bootstrap call aborts with the counter mismatch. -/
theorem later_bootstrap_call_witness :
    (plandl_call_handler notLoadableEnv
      (plandl_call_handler notLoadableEnv (_PG_init (State.fresh String)) "" bootCall).st
      (plandl_call_handler notLoadableEnv (_PG_init (State.fresh String)) "" bootCall).w
      bootCall).res = .error (.previousLoadFailed 5 0 "not loadable") :=
  (((later_bootstrap_call notLoadableEnv 0 _ _
      (Session.call bootCall (Session.start "")
        (fun f h => by
          rw [show (plandl_call_handler notLoadableEnv (_PG_init (State.fresh String)) ""
            bootCall).res = .error (.loadRuntimeFailed 0 "not loadable") by decide] at h
          cases h))
      bootCall
      { proname := "plandl_compile", pronargs := 0, proargtypes := [], prorettype := 25,
        prosrc := some "/path/to/module|optA=1" } rfl rfl).1 (by decide) (by decide)).2.2.2.2.1
    "/path/to/module|optA=1" rfl).trans (by decide)

/-! ## The SPI wrappers -/

/-- C8 (counterexample): `SPI_connect` answers `SPI_OK_CONNECT` and `SPI_execute` answers
`SPI_OK_SELECT` when they succeed; the wrappers return these codes as they are, and they
are neither 0, nor `SPI_OK_FETCH`, nor negative. -/
theorem spi_status_outside_vocabulary :
    pg_spi_connect SPI_OK_CONNECT = 1 ∧
    pg_spi_execute (fun _ _ _ => SPI_OK_SELECT) "select 1" true = 5 ∧
    ¬ (pg_spi_connect SPI_OK_CONNECT = SPI_OK ∨ pg_spi_connect SPI_OK_CONNECT = SPI_OK_FETCH ∨
        pg_spi_connect SPI_OK_CONNECT < 0) ∧
    ¬ (pg_spi_execute (fun _ _ _ => SPI_OK_SELECT) "select 1" true = SPI_OK ∨
        pg_spi_execute (fun _ _ _ => SPI_OK_SELECT) "select 1" true = SPI_OK_FETCH ∨
        pg_spi_execute (fun _ _ _ => SPI_OK_SELECT) "select 1" true < 0) := by
  decide

/-- C8 (amended): every wrapper returns a single integer status.  `pg_spi_connect`,
`pg_spi_finish`, `pg_spi_execute` and `pg_spi_execute_plan` return the code of the wrapped
routine as it is, whether negative or one of the positive success codes of Postgres
(the last two call the routine with row limit 0).  `pg_spi_prepare_cursor` and
`pg_spi_cursor_execute` return 0 and store the handle when the routine returns one, and
return `SPI_result` and store nothing when it returns NULL.  `pg_spi_getdatum`, when it
returns, returns 0, `SPI_ERROR_ARGUMENT`, or the negative `SPI_result` left by
`SPI_getbinval`.  `pg_spi_cursor_fetch` returns `SPI_OK_FETCH` when exactly one row was
processed and 0 otherwise, and these two differ. -/
theorem spi_status_vocabulary {Plan Portal Tup : Type} :
    (∀ r : Int, pg_spi_connect r = r ∧ pg_spi_finish r = r) ∧
    (∀ (f : String → Bool → Int → Int) (sql : String) (ro : Bool),
      pg_spi_execute f sql ro = f sql ro 0) ∧
    (∀ (f : Plan → List Datum → Bool → Int → Int) (plan : Plan) (vals : List Datum) (ro : Bool),
      pg_spi_execute_plan f plan vals ro = f plan vals ro 0) ∧
    (∀ (q : Plan) (r : Int),
      pg_spi_prepare_cursor (some q) r = (0, some q) ∧
      pg_spi_prepare_cursor (none : Option Plan) r = (r, none)) ∧
    (∀ (q : Portal) (r : Int),
      pg_spi_cursor_execute (some q) r = (0, some q) ∧
      pg_spi_cursor_execute (none : Option Portal) r = (r, none)) ∧
    (∀ (processed : Nat) (vals : List Tup) (g : Tup → Int → Datum × Bool × Int)
        (row column n : Int),
      (pg_spi_getdatum processed vals g row column).res = .ok n →
      n = 0 ∨ n = SPI_ERROR_ARGUMENT ∨
        (n < 0 ∧ ∃ t, vals[row.toNat]? = some t ∧ n = (g t column).2.2)) ∧
    (∀ processed : Nat,
      (pg_spi_cursor_fetch processed = SPI_OK_FETCH ↔ processed = 1) ∧
      (pg_spi_cursor_fetch processed = 0 ↔ processed ≠ 1)) ∧
    SPI_OK_FETCH ≠ 0 ∧ SPI_OK = 0 := by
  refine ⟨fun r => ⟨rfl, rfl⟩, fun _ _ _ => rfl, fun _ _ _ _ => rfl, fun _ _ => ⟨rfl, rfl⟩,
    fun _ _ => ⟨rfl, rfl⟩, ?_, ?_, by decide, rfl⟩
  · intro processed vals g row column n h
    unfold pg_spi_getdatum at h
    split_ifs at h with h1
    · simp at h
      exact Or.inr (Or.inl h.symm)
    · cases hv : vals[row.toNat]? with
      | none => simp [hv] at h
      | some t =>
        simp only [hv] at h
        split_ifs at h with h2 h3
        · simp at h
          exact Or.inr (Or.inr ⟨by rw [← h]; exact h2, t, rfl, h.symm⟩)
        · simp only [Res.ok.injEq] at h
          exact Or.inl h.symm
  · intro processed
    unfold pg_spi_cursor_fetch
    by_cases h : processed = 1
    · simp [h, SPI_OK_FETCH]
    · simp [h, SPI_OK, SPI_OK_FETCH]

/-- Witness for `spi_status_vocabulary`: a fetch that processed one row, a failed prepare
and a datum read on concrete answers of the host. -/
theorem spi_status_vocabulary_witness :
    pg_spi_cursor_fetch 1 = SPI_OK_FETCH ∧
    pg_spi_prepare_cursor (none : Option Nat) (-6) = (-6, none) ∧
    ((0 : Int) = 0 ∨ (0 : Int) = SPI_ERROR_ARGUMENT ∨
      ((0 : Int) < 0 ∧ ∃ t, ([7] : List Nat)[(0 : Int).toNat]? = some t ∧
        (0 : Int) = ((fun (t : Nat) (_ : Int) => ((t, false, (0 : Int)) : Datum × Bool × Int))
          t 1).2.2)) :=
  have h := @spi_status_vocabulary Nat Nat Nat
  ⟨(h.2.2.2.2.2.2.1 1).1.2 rfl, (h.2.2.2.1 0 (-6)).2,
   h.2.2.2.2.2.1 2 [7] (fun t _ => (t, false, 0)) 0 1 0 (by decide)⟩

/-- The guard of `pg_spi_getdatum`: a negative row, or a row above `SPI_processed`, gives
`SPI_ERROR_ARGUMENT` without reading the row array and without writing `*datum`; and
`*datum` is written exactly when the function returns 0. -/
theorem getdatum_guard {Tup : Type} (processed : Nat) (vals : List Tup)
    (g : Tup → Int → Datum × Bool × Int) (row column : Int) :
    (row < 0 ∨ row > toInt32 processed →
      pg_spi_getdatum processed vals g row column = ⟨none, none, .ok SPI_ERROR_ARGUMENT⟩) ∧
    ((pg_spi_getdatum processed vals g row column).written.isSome = true ↔
      (pg_spi_getdatum processed vals g row column).res = .ok 0) := by
  unfold pg_spi_getdatum
  refine ⟨fun h => by simp [h], ?_⟩
  split_ifs with h1
  · simp [SPI_ERROR_ARGUMENT]
  · cases hv : vals[row.toNat]? with
    | none => simp
    | some t =>
      simp only []
      split_ifs with h2 h3
      · simp; omega
      · simp
      · simp [SPI_OK]

/-- C10 (the code at the failing input): one row was processed and the row array holds one
tuple.  For `row = 1` the guard `row > (int)SPI_processed` does not fire: the function
indexes the row array at 1, past its last element. -/
theorem getdatum_reads_row_at_processed :
    pg_spi_getdatum 1 [7] (fun (t : Nat) (_ : Int) => (t, false, 0)) 1 1 =
      ⟨some 1, none, .fault .outOfBounds⟩ ∧
    pg_spi_getdatum 1 [7] (fun (t : Nat) (_ : Int) => (t, false, 0)) 2 1 =
      ⟨none, none, .ok SPI_ERROR_ARGUMENT⟩ ∧
    pg_spi_getdatum 1 [7] (fun (t : Nat) (_ : Int) => (t, false, 0)) 0 1 =
      ⟨some 0, some 7, .ok 0⟩ := by
  decide

end Plandl
